import Mathlib

/-!
# rDSN task abstraction: a shallow embedding of `dsn/tool-api/task.h`

The definitions below follow the inline method bodies of
`src/include/dsn/tool-api/task.h` and the classes `safe_handle` and `gpid`
of `src/include/dsn/cpp/auto_codes.h`.

Conventions of the embedding

* A method that mutates `this` becomes a function returning the updated object.
* Invoking a `std::function` callback is not executed; it is recorded as an
  event, in program order, in the list the method returns.  A callable is
  represented by an identifier, an empty `std::function` (`nullptr`) by `none`.
* `raw_task::exec` and `aio_task::exec` reset `_cb` only after the call of
  `_cb` has returned; what the callback does while it runs (return, throw,
  call `exec` of its task again) is a parameter of these two methods.
* `uint64_t` arithmetic is arithmetic on `Nat` reduced modulo `2 ^ 64`.
* A raw pointer to bytes is represented by the byte sequence it points to;
  an access past the end of that sequence (undefined behaviour in C++) makes
  the operation return `none`.
-/

namespace dsn

/-! ## Machine integers -/

/-- Modulus of `uint64_t` arithmetic. -/
def UINT64_MOD : Nat := 2 ^ 64

/-- The conversion `static_cast<uint64_t>(x)` of a signed integer. -/
def static_cast_uint64 (x : Int) : Nat := (x % (UINT64_MOD : Int)).toNat

/-- Subtraction `a - b` on `uint64_t`. -/
def u64_sub (a b : Nat) : Nat := (a % UINT64_MOD + UINT64_MOD - b % UINT64_MOD) % UINT64_MOD

/-- Multiplication `a * b` on `uint64_t`. -/
def u64_mul (a b : Nat) : Nat := (a * b) % UINT64_MOD

/-! ## Messages -/

/-- The `client` part of a message header.  `timeout_ms` is a signed integer:
`exec` prints it with `%d` and converts it with `static_cast<uint64_t>`. -/
structure message_header_client where
  timeout_ms : Int
  deriving DecidableEq, Repr

/-- The fields of `message_header` read by `task.h`. -/
structure message_header where
  from_address : Nat
  client : message_header_client
  deriving DecidableEq, Repr

/-- A message (`message_ex`), identified by `id`, with its header. -/
structure message_ex where
  id : Nat
  header : message_header
  deriving DecidableEq, Repr

/-- An `error_code` value. -/
abbrev error_code := Int

/-! ## The base class `task` -/

/-- The enumeration `task_state`. -/
inductive task_state where
  | TASK_STATE_READY
  | TASK_STATE_RUNNING
  | TASK_STATE_FINISHED
  | TASK_STATE_CANCELLED
  deriving DecidableEq, Repr

/-- The data members of `task` that the inline code of `task.h` reads or writes. -/
structure task where
  _is_null : Bool
  _error : error_code
  _state : task_state
  _task_id : Nat
  _hash : Int
  _delay_milliseconds : Int
  deriving DecidableEq, Repr

/-- The method `task::id`. -/
def task.id (t : task) : Nat := t._task_id

/-! ## `rpc_request_task` -/

/-- What `rpc_request_task::exec` does to the outside world. -/
inductive rpc_request_event where
  /-- The call `_handler(_request)`. -/
  | handler_call (handler : Nat) (request : message_ex)
  /-- The `dwarn` diagnostic of the timeout branch, with the printed
  sender address and `timeout_ms`. -/
  | dwarn_timeout (from_address : Nat) (timeout_ms : Int)
  deriving DecidableEq, Repr

/-- The class `rpc_request_task`. -/
structure rpc_request_task extends task where
  _request : message_ex
  _handler : Option Nat
  _enqueue_ts_ns : Nat
  deriving DecidableEq, Repr

/-- The condition of the `if` in `rpc_request_task::exec`, with `now_ns` the
value returned by `dsn_now_ns()`. -/
def rpc_request_task.within_timeout (t : rpc_request_task) (now_ns : Nat) : Bool :=
  decide (0 = t._enqueue_ts_ns) ||
    decide (u64_sub now_ns t._enqueue_ts_ns <
      u64_mul (static_cast_uint64 t._request.header.client.timeout_ms) 1000000)

/-- The method `rpc_request_task::exec`; `now_ns` is the value `dsn_now_ns()`
returns.  The result is the task after the call and the events of the call. -/
def rpc_request_task.exec (t : rpc_request_task) (now_ns : Nat) :
    rpc_request_task × List rpc_request_event :=
  let events : List rpc_request_event :=
    if t.within_timeout now_ns then
      match t._handler with
      | some h => [rpc_request_event.handler_call h t._request]
      | none => []
    else
      [rpc_request_event.dwarn_timeout t._request.header.from_address
        t._request.header.client.timeout_ms]
  ({ t with _handler := none }, events)

/-- Whether an event of `rpc_request_task::exec` is a call of the handler. -/
def rpc_request_event.is_call : rpc_request_event → Bool
  | .handler_call _ _ => true
  | .dwarn_timeout _ _ => false

/-! ## `rpc_response_task` -/

/-- The call `_cb(_error, _request, _response)` of `rpc_response_task::exec`;
`response` is `none` for a null reply pointer. -/
structure rpc_response_call where
  cb : Nat
  error : error_code
  request : message_ex
  response : Option message_ex
  deriving DecidableEq, Repr

/-- The class `rpc_response_task`. -/
structure rpc_response_task extends task where
  _request : message_ex
  _response : Option message_ex
  _caller_pool : Nat
  _cb : Option Nat
  deriving DecidableEq, Repr

/-- The method `rpc_response_task::exec`: the task after the call and the
callback calls made. -/
def rpc_response_task.exec (t : rpc_response_task) :
    rpc_response_task × List rpc_response_call :=
  match t._cb with
  | some cb => (t, [{ cb := cb, error := t._error, request := t._request,
                      response := t._response }])
  | none => (t, [])

/-! ## Callbacks that run before `_cb` is reset -/

/-- What the callback of a task does during one call of it. -/
inductive callback_action where
  /-- It returns normally and does not call `exec` of its task. -/
  | returns
  /-- It is left by an exception. -/
  | throws
  /-- It calls `exec` of its task once and then returns; an exception
  leaving that `exec` leaves the callback too. -/
  | reenters
  deriving DecidableEq, Repr

/-- The behaviour of the callback of a task: what its call number `k` does,
the calls being counted from 0 in the order they start. -/
abbrev callback_behaviour := Nat → callback_action

/-- How a call of `exec` ends: the task after it, the calls of the callback
it made, in the order they started, and whether it was left by an
exception. -/
structure exec_outcome (τ κ : Type) where
  after : τ
  calls : List κ
  thrown : Bool
  deriving DecidableEq, Repr

/-! ## `disk_aio` and `aio_task` -/

/-- A `char`.  The copies below move bytes and never inspect their value. -/
abbrev char := Nat

/-- The enumeration `aio_type`. -/
inductive aio_type where
  | AIO_Invalid
  | AIO_Read
  | AIO_Write
  deriving DecidableEq, Repr

/-- The class `disk_aio`.  `buffer` is the memory `void *buffer` points to
(empty for `nullptr`); `buffer_size` is the separate `uint32_t` field. -/
structure disk_aio where
  file : Nat
  buffer : List char
  buffer_size : Nat
  file_offset : Nat
  type : aio_type
  engine : Nat
  file_object : Nat
  deriving DecidableEq, Repr

/-- An element of `_unmerged_write_buffers` (`dsn_file_buffer_t`, a pointer
`buffer` with a byte count `size`), represented by the `size` bytes found at
`buffer`. -/
structure dsn_file_buffer_t where
  buffer : List char
  deriving DecidableEq, Repr

/-- The field `size` of a `dsn_file_buffer_t`. -/
def dsn_file_buffer_t.size (b : dsn_file_buffer_t) : Nat := b.buffer.length

/-- A `blob` after `assign(buffer, offset, length)`: the shared array it
keeps alive, and the offset and length of its window. -/
structure blob where
  _holder : List char
  _offset : Nat
  _length : Nat
  deriving DecidableEq, Repr

/-- The method `blob::assign`. -/
def blob.assign (_b : blob) (buffer : List char) (offset length : Nat) : blob :=
  { _holder := buffer, _offset := offset, _length := length }

/-- The call `_cb(_error, _transferred_size)` of `aio_task::exec`. -/
structure aio_call where
  cb : Nat
  error : error_code
  transferred_size : Nat
  deriving DecidableEq, Repr

/-- The class `aio_task`. -/
structure aio_task extends task where
  _unmerged_write_buffers : List dsn_file_buffer_t
  _merged_write_buffer_holder : blob
  _aio : disk_aio
  _transferred_size : Nat
  _cb : Option Nat
  deriving DecidableEq, Repr

/-- The call `memcpy(dest + off, src, n)`, where `dest` is the writable
memory at the destination pointer and `src` the readable memory at the
source pointer.  Reading or writing out of bounds gives `none`. -/
def memcpy (dest : List char) (off : Nat) (src : List char) (n : Nat) :
    Option (List char) :=
  if n ≤ src.length ∧ off + n ≤ dest.length then
    some (dest.take off ++ src.take n ++ dest.drop (off + n))
  else
    none

/-- The `for` loop of `aio_task::copy_to`: `off` is the distance the local
`dest` has advanced from the pointer passed in. -/
def copy_buffers : List dsn_file_buffer_t → List char → Nat → Option (List char)
  | [], dest, _ => some dest
  | b :: rest, dest, off =>
    match memcpy dest off b.buffer b.size with
    | none => none
    | some dest1 => copy_buffers rest dest1 (off + b.size)

/-- The method `aio_task::copy_to`.  `dest` is the memory at the pointer
passed in, which is distinct from the memory the task reads; the result is
the task and that memory after the call. -/
def aio_task.copy_to (t : aio_task) (dest : List char) :
    Option (aio_task × List char) :=
  if !t._unmerged_write_buffers.isEmpty then
    match copy_buffers t._unmerged_write_buffers dest 0 with
    | none => none
    | some dest1 => some (t, dest1)
  else
    match memcpy dest 0 t._aio.buffer t._aio.buffer_size with
    | none => none
    | some dest1 => some (t, dest1)

/-- The call `dsn::make_shared_array<char>(n)`: a new array of `n` chars
whose initial content, indeterminate in C++, is given by `fresh`. -/
def make_shared_array (n : Nat) (fresh : Nat → char) : List char :=
  (List.range n).map fresh

/-- The method `aio_task::collapse`.  The new array is shared by the local
`buffer`, by `_merged_write_buffer_holder` and by `_aio->buffer`, so the
bytes `copy_to` writes through `buffer.get()` are the content of all three
after the call. -/
def aio_task.collapse (t : aio_task) (fresh : Nat → char) : Option aio_task :=
  if !t._unmerged_write_buffers.isEmpty then
    let buffer := make_shared_array t._aio.buffer_size fresh
    match t.copy_to buffer with
    | none => none
    | some (t1, filled) =>
      some { t1 with
        _merged_write_buffer_holder :=
          t1._merged_write_buffer_holder.assign filled 0 t1._aio.buffer_size
        _aio := { t1._aio with buffer := filled } }
  else
    some t

/-- The method `aio_task::exec`.  `started` is the number of calls of the
callback started before this `exec`, `fuel` bounds the depth of nested
`exec` calls (`none` when the nesting goes deeper).  The assignment
`_cb = nullptr` is reached only when the call `_cb(_error,
_transferred_size)` returns. -/
def aio_task.exec (behaviour : callback_behaviour) :
    Nat → Nat → aio_task → Option (exec_outcome aio_task aio_call)
  | 0, _, _ => none
  | fuel + 1, started, t =>
    match t._cb with
    | none => some { after := t, calls := [], thrown := false }
    | some cb =>
      let call : aio_call :=
        { cb := cb, error := t._error, transferred_size := t._transferred_size }
      match behaviour started with
      | .returns => some { after := { t with _cb := none }, calls := [call], thrown := false }
      | .throws => some { after := t, calls := [call], thrown := true }
      | .reenters =>
        match aio_task.exec behaviour fuel (started + 1) t with
        | none => none
        | some inner =>
          if inner.thrown then
            some { after := inner.after, calls := call :: inner.calls, thrown := true }
          else
            some { after := { inner.after with _cb := none }, calls := call :: inner.calls,
                   thrown := false }

/-- The bytes of all buffers of the list, one after the other in list order. -/
def concat_buffers (bs : List dsn_file_buffer_t) : List char :=
  (bs.map dsn_file_buffer_t.buffer).flatten

/-- The sum of the `size` fields of the buffers of the list. -/
def total_size (bs : List dsn_file_buffer_t) : Nat :=
  (bs.map dsn_file_buffer_t.size).sum

/-! ## The thread-local execution context -/

/-- A pointer to an object that `task.h` only forwards: its address. -/
abbrev pointer := Nat

/-- The null pointer. -/
def nullptr : pointer := 0

/-- The value of `magic` in an initialized context. -/
def TLS_MAGIC : Nat := 0xdeadbeef

/-- The struct `__tls_dsn__` (without the scratch arrays themselves).
`current_task` is `none` for a null pointer, else the task pointed to. -/
structure __tls_dsn__ where
  magic : Nat
  current_task : Option task
  worker : pointer
  worker_index : Int
  node : pointer
  node_id : Int
  rpc : pointer
  disk : pointer
  env : pointer
  nfs : pointer
  tsvc : pointer
  last_worker_queue_size : Int
  node_pool_thread_ids : Nat
  last_lower32_task_id : Nat
  scratch_buffer_index : Int
  deriving DecidableEq, Repr

/-- The fatal condition of the process. -/
inductive fatal_error where
  | tls_dsn_not_set
  deriving DecidableEq, Repr

/-- Modelled from the spec: `task::on_tls_dsn_not_set` is declared in
`task.h` and defined outside the sources at hand; the spec calls it a
"fatal, unrecoverable condition" that "must abort the process", so it never
returns to its caller. -/
def task.on_tls_dsn_not_set (_tls : __tls_dsn__) : Except fatal_error __tls_dsn__ :=
  Except.error fatal_error.tls_dsn_not_set

/-- The function `task::check_tls_dsn`; `tls` is the calling thread's
`tls_dsn`, returned as the call leaves it. -/
def task.check_tls_dsn (tls : __tls_dsn__) : Except fatal_error __tls_dsn__ :=
  if tls.magic ≠ TLS_MAGIC then task.on_tls_dsn_not_set tls else Except.ok tls

/-- The function `task::get_current_task`. -/
def task.get_current_task (tls : __tls_dsn__) :
    Except fatal_error (Option task × __tls_dsn__) := do
  let tls1 ← task.check_tls_dsn tls
  return (tls1.current_task, tls1)

/-- The function `task::get_current_task_id`. -/
def task.get_current_task_id (tls : __tls_dsn__) :
    Except fatal_error (Nat × __tls_dsn__) :=
  if tls.magic = TLS_MAGIC then
    match tls.current_task with
    | some t => return (t.id, tls)
    | none => return (0, tls)
  else
    return (0, tls)

/-- The function `task::get_current_worker`. -/
def task.get_current_worker (tls : __tls_dsn__) :
    Except fatal_error (pointer × __tls_dsn__) := do
  let tls1 ← task.check_tls_dsn tls
  return (tls1.worker, tls1)

/-- The function `task::get_current_worker2`. -/
def task.get_current_worker2 (tls : __tls_dsn__) :
    Except fatal_error (pointer × __tls_dsn__) :=
  return (if tls.magic = TLS_MAGIC then tls.worker else nullptr, tls)

/-- The function `task::get_current_node`. -/
def task.get_current_node (tls : __tls_dsn__) :
    Except fatal_error (pointer × __tls_dsn__) := do
  let tls1 ← task.check_tls_dsn tls
  return (tls1.node, tls1)

/-- The function `task::get_current_node_id`. -/
def task.get_current_node_id (tls : __tls_dsn__) :
    Except fatal_error (Int × __tls_dsn__) :=
  return (if tls.magic = TLS_MAGIC then tls.node_id else 0, tls)

/-- The function `task::get_current_node2`. -/
def task.get_current_node2 (tls : __tls_dsn__) :
    Except fatal_error (pointer × __tls_dsn__) :=
  return (if tls.magic = TLS_MAGIC then tls.node else nullptr, tls)

/-- The function `task::get_current_worker_index`. -/
def task.get_current_worker_index (tls : __tls_dsn__) :
    Except fatal_error (Int × __tls_dsn__) := do
  let tls1 ← task.check_tls_dsn tls
  return (tls1.worker_index, tls1)

/-- The function `task::get_current_rpc`. -/
def task.get_current_rpc (tls : __tls_dsn__) :
    Except fatal_error (pointer × __tls_dsn__) := do
  let tls1 ← task.check_tls_dsn tls
  return (tls1.rpc, tls1)

/-- The function `task::get_current_disk`. -/
def task.get_current_disk (tls : __tls_dsn__) :
    Except fatal_error (pointer × __tls_dsn__) := do
  let tls1 ← task.check_tls_dsn tls
  return (tls1.disk, tls1)

/-- The function `task::get_current_env`. -/
def task.get_current_env (tls : __tls_dsn__) :
    Except fatal_error (pointer × __tls_dsn__) := do
  let tls1 ← task.check_tls_dsn tls
  return (tls1.env, tls1)

/-- The function `task::get_current_nfs`. -/
def task.get_current_nfs (tls : __tls_dsn__) :
    Except fatal_error (pointer × __tls_dsn__) := do
  let tls1 ← task.check_tls_dsn tls
  return (tls1.nfs, tls1)

/-- The function `task::get_current_tsvc`. -/
def task.get_current_tsvc (tls : __tls_dsn__) :
    Except fatal_error (pointer × __tls_dsn__) := do
  let tls1 ← task.check_tls_dsn tls
  return (tls1.tsvc, tls1)

/-! ## The task state machine -/

/-- The operations on a task that move its state. -/
inductive task_operation where
  | dispatch
  | complete
  | retry
  | cancel
  deriving DecidableEq, Repr

/-- Modelled from the spec: `task::exec_internal`, `task::cancel`,
`task::enqueue` and `task::set_retry` are declared in `task.h` and defined
outside the sources at hand.  The spec gives the state machine
"ready →(dispatch)→ running →(normal completion)→ finished;
running →(explicit retry)→ ready; any non-finished state →(cancel)→
cancelled, terminal"; an operation that does not apply leaves the state as
it is. -/
def task_state.step (s : task_state) : task_operation → task_state
  | .dispatch => if s = .TASK_STATE_READY then .TASK_STATE_RUNNING else s
  | .complete => if s = .TASK_STATE_RUNNING then .TASK_STATE_FINISHED else s
  | .retry => if s = .TASK_STATE_RUNNING then .TASK_STATE_READY else s
  | .cancel =>
    if s = .TASK_STATE_FINISHED ∨ s = .TASK_STATE_CANCELLED then s
    else .TASK_STATE_CANCELLED

/-- The method `task::state`. -/
def task.state (t : task) : task_state := t._state

/-- Modelled from the spec: one operation applied to a task; only the
state moves (see `task_state.step`). -/
def task.apply_operation (t : task) (op : task_operation) : task :=
  { t with _state := t._state.step op }

/-- Modelled from the spec: a sequence of operations applied to a task,
first to last. -/
def task.apply_operations (t : task) (ops : List task_operation) : task :=
  ops.foldl task.apply_operation t

/-- The states `finished` and `cancelled`. -/
def task_state.is_terminal : task_state → Bool
  | .TASK_STATE_FINISHED => true
  | .TASK_STATE_CANCELLED => true
  | _ => false

/-- The position of a state on the chain ready, running, {finished, cancelled}. -/
def task_state.rank : task_state → Nat
  | .TASK_STATE_READY => 0
  | .TASK_STATE_RUNNING => 1
  | .TASK_STATE_FINISHED => 2
  | .TASK_STATE_CANCELLED => 2

/-! ## `__tls_dsn__::scratch_next` -/

/-- The largest value of `int` (32 bits). -/
def INT_MAX : Int := 2147483647

/-- The number of scratch buffers, the first dimension of `scratch_buffer`. -/
def SCRATCH_BUFFER_COUNT : Nat := 4

/-- The method `__tls_dsn__::scratch_next`: the number of the row of
`scratch_buffer` whose address is returned, and the context after the call.
`++scratch_buffer_index` on `INT_MAX` overflows and a negative remainder
(`%` of C++ truncates towards zero) indexes before the array: both are
undefined behaviour and give `none`. -/
def __tls_dsn__.scratch_next (tls : __tls_dsn__) : Option (Nat × __tls_dsn__) :=
  if tls.scratch_buffer_index = INT_MAX then
    none
  else
    let index := tls.scratch_buffer_index + 1
    let row := Int.tmod index 4
    if 0 ≤ row ∧ row.toNat < SCRATCH_BUFFER_COUNT then
      some (row.toNat, { tls with scratch_buffer_index := index })
    else
      none

/-- The method `scratch_next` called `n` times in a row: the rows returned,
in order, and the context after the calls. -/
def __tls_dsn__.scratch_next_rows : Nat → __tls_dsn__ → Option (List Nat × __tls_dsn__)
  | 0, tls => some ([], tls)
  | n + 1, tls =>
    match tls.scratch_next with
    | none => none
    | some (row, tls1) =>
      match __tls_dsn__.scratch_next_rows n tls1 with
      | none => none
      | some (rows, tls2) => some (row :: rows, tls2)

/-! ## `raw_task` and `safe_late_task` -/

/-- The class `raw_task`: a task with the callback `_cb`. -/
structure raw_task extends task where
  _cb : Option Nat
  deriving DecidableEq, Repr

/-- The constructors of `raw_task`, given the base-class part built by
`task(code, hash, node)`. -/
def raw_task.ctor (base : task) (cb : Option Nat) : raw_task :=
  { base with _cb := cb }

/-- The method `raw_task::exec`.  `started` is the number of calls of the
callback started before this `exec`, `fuel` bounds the depth of nested
`exec` calls (`none` when the nesting goes deeper).  The assignment
`_cb = nullptr` is reached only when the call `_cb()` returns. -/
def raw_task.exec (behaviour : callback_behaviour) :
    Nat → Nat → raw_task → Option (exec_outcome raw_task Nat)
  | 0, _, _ => none
  | fuel + 1, started, t =>
    match t._cb with
    | none => some { after := t, calls := [], thrown := false }
    | some cb =>
      match behaviour started with
      | .returns => some { after := { t with _cb := none }, calls := [cb], thrown := false }
      | .throws => some { after := t, calls := [cb], thrown := true }
      | .reenters =>
        match raw_task.exec behaviour fuel (started + 1) t with
        | none => none
        | some inner =>
          if inner.thrown then
            some { after := inner.after, calls := cb :: inner.calls, thrown := true }
          else
            some { after := { inner.after with _cb := none }, calls := cb :: inner.calls,
                   thrown := false }

/-- The method `raw_task::exec` called `n` times in a row, each call with
nesting bound `fuel`, whether or not an earlier one was left by an
exception: the task after the calls and all callbacks called, in order. -/
def raw_task.exec_times (behaviour : callback_behaviour) (fuel : Nat) :
    Nat → Nat → raw_task → Option (raw_task × List Nat)
  | 0, _, t => some (t, [])
  | n + 1, started, t =>
    match raw_task.exec behaviour fuel started t with
    | none => none
    | some first =>
      match raw_task.exec_times behaviour fuel n (started + first.calls.length) first.after with
      | none => none
      | some later => some (later.1, first.calls ++ later.2)

/-- The class template `safe_late_task`, for a callback type `TCallback`
that can be null: a `raw_task` with the user callback `_user_cb`. -/
structure safe_late_task extends raw_task where
  _user_cb : Option Nat
  deriving DecidableEq, Repr

/-- The constructors of `safe_late_task`: the `raw_task` part is built with
a null callback. -/
def safe_late_task.ctor (base : task) (cb : Option Nat) : safe_late_task :=
  { raw_task.ctor base none with _user_cb := cb }

/-- The method `safe_late_task::bind_and_enqueue`, up to its final call of
`enqueue()`, which is defined outside these sources and has no access to
`raw_task::_cb`.  The currying `c` maps a user callback to a task handler,
possibly an empty one. -/
def safe_late_task.bind_and_enqueue (t : safe_late_task) (c : Nat → Option Nat)
    (delay_ms : Int) : safe_late_task :=
  let bound : safe_late_task :=
    match t._user_cb with
    | some user_cb => { t with _cb := c user_cb }
    | none => t
  { bound with _delay_milliseconds := delay_ms }

/-- The method `exec` of a `safe_late_task`, inherited from `raw_task`. -/
def safe_late_task.exec (behaviour : callback_behaviour) (fuel started : Nat)
    (t : safe_late_task) : Option (exec_outcome safe_late_task Nat) :=
  match raw_task.exec behaviour fuel started t.toraw_task with
  | none => none
  | some r =>
    some { after := { t with toraw_task := r.after }, calls := r.calls, thrown := r.thrown }

/-! ## `safe_handle` (`dsn/cpp/auto_codes.h`) -/

/-- The class template `safe_handle<releaser>`; `_handle` is the address
held, `nullptr` when none. -/
structure safe_handle where
  _handle : pointer
  _is_owner : Bool
  deriving DecidableEq, Repr

/-- The constructor `safe_handle(void *handle, bool is_owner)`. -/
def safe_handle.ctor (handle : pointer) ( is_owner : Bool) : safe_handle :=
  { _handle := handle, _is_owner := is_owner }

/-- The constructor `safe_handle()`. -/
def safe_handle.ctor_default : safe_handle :=
  { _handle := nullptr, _is_owner := false }

/-- The private method `safe_handle::clear`: the object after the call and
the handles `releaser` was called on. -/
def safe_handle.clear (s : safe_handle) : safe_handle × List pointer :=
  if s._is_owner = true ∧ nullptr ≠ s._handle then
    ({ s with _handle := nullptr }, [s._handle])
  else
    (s, [])

/-- The method `safe_handle::assign`. -/
def safe_handle.assign (s : safe_handle) (handle : pointer) ( is_owner : Bool) :
    safe_handle × List pointer :=
  let cleared := s.clear
  ({ cleared.1 with _handle := handle, _is_owner := is_owner }, cleared.2)

/-- The method `safe_handle::set_owner`. -/
def safe_handle.set_owner (s : safe_handle) (owner : Bool) : safe_handle × List pointer :=
  ({ s with _is_owner := owner }, [])

/-- A call of a public mutating method of a live `safe_handle`. -/
inductive safe_handle_call where
  | assign (handle : pointer) ( is_owner : Bool)
  | set_owner (owner : Bool)
  deriving DecidableEq, Repr

/-- One call applied to a `safe_handle`. -/
def safe_handle.call (s : safe_handle) : safe_handle_call → safe_handle × List pointer
  | .assign handle o => s.assign handle o
  | .set_owner o => s.set_owner o

/-- A sequence of calls applied to a `safe_handle`, first to last: the
object after them and the handles `releaser` was called on, in order. -/
def safe_handle.calls : safe_handle → List safe_handle_call → safe_handle × List pointer
  | s, [] => (s, [])
  | s, c :: rest =>
    let first := s.call c
    let later := safe_handle.calls first.1 rest
    (later.1, first.2 ++ later.2)

/-- The value a 32-bit pattern has as an `int32_t` (two's complement). -/
def to_int32 (bits : Nat) : Int :=
  if bits % 2 ^ 32 < 2 ^ 31 then ((bits % 2 ^ 32 : Nat) : Int)
  else ((bits % 2 ^ 32 : Nat) : Int) - 2 ^ 32

/-- The 32-bit pattern of an integer converted to `int32_t`. -/
def of_int32 (x : Int) : Nat := (x % 2 ^ 32).toNat

/-- The union `dsn_gpid`, declared outside these sources; `gpid` uses its
members `value` (a `uint64_t`) and `u.app_id`, `u.partition_index` (two
`int32_t`).  It is 64 bits of storage, kept here as the number `value`, of
which `u.app_id` is the low and `u.partition_index` the high half. -/
structure dsn_gpid where
  value : Nat
  value_lt : value < 2 ^ 64
  deriving DecidableEq, Repr

/-- The member `u.app_id` of a `dsn_gpid`. -/
def dsn_gpid.app_id (g : dsn_gpid) : Int := to_int32 (g.value % 2 ^ 32)

/-- The member `u.partition_index` of a `dsn_gpid`. -/
def dsn_gpid.partition_index (g : dsn_gpid) : Int := to_int32 (g.value / 2 ^ 32)

/-- The class `gpid`. -/
structure gpid where
  _value : dsn_gpid
  deriving DecidableEq, Repr

/-- The constructor `gpid(int app_id, int pidx)`. -/
def gpid.ctor (app_id pidx : Int) : gpid :=
  { _value :=
      { value := of_int32 app_id + 2 ^ 32 * of_int32 pidx
        value_lt := by
          unfold of_int32
          omega } }

/-- The constructor `gpid()`. -/
def gpid.ctor_default : gpid :=
  { _value := { value := 0, value_lt := by decide } }

/-- The method `gpid::value`. -/
def gpid.value (g : gpid) : Nat := g._value.value

/-- The method `gpid::get_app_id`. -/
def gpid.get_app_id (g : gpid) : Int := g._value.app_id

/-- The method `gpid::get_partition_index`. -/
def gpid.get_partition_index (g : gpid) : Int := g._value.partition_index

/-- The operator `gpid::operator<`. -/
def gpid.operator_lt (l r : gpid) : Bool :=
  decide (l._value.app_id < r._value.app_id) ||
    (decide (l._value.app_id = r._value.app_id) &&
      decide (l._value.partition_index < r._value.partition_index))

/-- The operator `gpid::operator==`. -/
def gpid.operator_eq (l r : gpid) : Bool := decide (l.value = r.value)

/-- The operator `gpid::operator!=`. -/
def gpid.operator_ne (l r : gpid) : Bool := decide (l.value ≠ r.value)

/-! ## Sample objects -/

/-- A base-class part for the sample tasks. -/
def sample_task : task :=
  { _is_null := false, _error := 0, _state := task_state.TASK_STATE_READY,
    _task_id := 42, _hash := 0, _delay_milliseconds := 0 }

/-- A request message declaring the given client timeout. -/
def sample_message (timeout_ms : Int) : message_ex :=
  { id := 7, header := { from_address := 1, client := { timeout_ms := timeout_ms } } }

/-- A request task with handler `3`, queued at `enqueue_ts_ns`. -/
def sample_rpc_request_task (enqueue_ts_ns : Nat) (timeout_ms : Int) : rpc_request_task :=
  { sample_task with
    _request := sample_message timeout_ms
    _handler := some 3
    _enqueue_ts_ns := enqueue_ts_ns }

/-- A thread context with the given guard value, bound to worker `11` of
node `22`, running `sample_task`. -/
def sample_tls (magic : Nat) : __tls_dsn__ :=
  { magic := magic, current_task := some sample_task,
    worker := 11, worker_index := 2, node := 22, node_id := 5,
    rpc := 31, disk := 32, env := 33, nfs := 34, tsvc := 35,
    last_worker_queue_size := 0, node_pool_thread_ids := 0,
    last_lower32_task_id := 0, scratch_buffer_index := 0 }

/-- The disk descriptor of the sample AIO tasks: `_aio->buffer` points to
the two bytes `9, 9`. -/
def sample_disk_aio (buffer_size : Nat) : disk_aio :=
  { file := 1, buffer := [9, 9], buffer_size := buffer_size, file_offset := 0,
    type := aio_type.AIO_Write, engine := 0, file_object := 0 }

/-- An AIO task with callback `4`, error `0` and 3 bytes transferred, holding
the given source buffers and descriptor size. -/
def sample_aio_task (buffers : List (List char)) (buffer_size : Nat) : aio_task :=
  { sample_task with
    _unmerged_write_buffers := buffers.map (fun b => { buffer := b })
    _merged_write_buffer_holder := { _holder := [], _offset := 0, _length := 0 }
    _aio := sample_disk_aio buffer_size
    _transferred_size := 3
    _cb := some 4 }

/-- The sample context (initialized) with the given scratch index. -/
def sample_tls_scratch (index : Int) : __tls_dsn__ :=
  { sample_tls 0xdeadbeef with scratch_buffer_index := index }

/-- A callback that returns normally at each call. -/
def always_returns : callback_behaviour := fun _ => callback_action.returns

/-- A callback that throws at each call. -/
def always_throws : callback_behaviour := fun _ => callback_action.throws

/-- A callback whose first `n` calls call `exec` of its task again and whose
later calls return at once. -/
def reenters_times (n : Nat) : callback_behaviour :=
  fun k => if k < n then callback_action.reenters else callback_action.returns

/-- The call the sample AIO task makes of its callback. -/
def sample_aio_call : aio_call := { cb := 4, error := 0, transferred_size := 3 }

/-! # Theorems -/

/-! ## `rpc_request_task::exec` -/

theorem u64_sub_of_le {a b : Nat} (ha : a < UINT64_MOD) (hb : b ≤ a) :
    u64_sub a b = a - b := by
  unfold u64_sub UINT64_MOD at *
  omega

theorem timeout_ns_le (x : Int) (hx : 0 ≤ x) :
    u64_mul (static_cast_uint64 x) 1000000 ≤ x.toNat * 1000000 := by
  have h1 : static_cast_uint64 x ≤ x.toNat := by
    unfold static_cast_uint64 UINT64_MOD
    norm_num
    omega
  unfold u64_mul
  exact le_trans (Nat.mod_le _ _) (Nat.mul_le_mul_right _ h1)

/-- C1, as stated, fails: a request task whose enqueue timestamp is `0` and
whose declared timeout is 1 ms, executed 5 ms later, has its handler
called; so has a task queued at 1000 ns declaring the timeout `-1`,
executed 5 ns later. -/
theorem rpc_request_exec_stale_handler_called :
    ((1 : Int) * 1000000 < ((5000000 - 0 : Nat) : Int) ∧
      ((sample_rpc_request_task 0 1).exec 5000000).2 =
        [rpc_request_event.handler_call 3 (sample_message 1)]) ∧
    ((-1 : Int) * 1000000 < ((1005 - 1000 : Nat) : Int) ∧
      ((sample_rpc_request_task 1000 (-1)).exec 1005).2 =
        [rpc_request_event.handler_call 3 (sample_message (-1))]) := by
  decide

/-- C1, amended: for a request task whose recorded enqueue timestamp `T` is
not `0` and whose declared timeout `D` is not negative, an execution at a
time `T + d` with `d` greater than `D` (in nanoseconds, `D` being
`timeout_ms * 1000000`) calls no handler: the only event is the timeout
diagnostic. -/
theorem rpc_request_exec_stale_skips_handler (t : rpc_request_task) (now_ns : Nat)
    (hts : t._enqueue_ts_ns ≠ 0)
    (hD : 0 ≤ t._request.header.client.timeout_ms)
    (hnow : now_ns < UINT64_MOD)
    (hT : t._enqueue_ts_ns ≤ now_ns)
    (hd : t._request.header.client.timeout_ms * 1000000 <
      ((now_ns - t._enqueue_ts_ns : Nat) : Int)) :
    (t.exec now_ns).2 =
        [rpc_request_event.dwarn_timeout t._request.header.from_address
          t._request.header.client.timeout_ms] ∧
      ∀ e ∈ (t.exec now_ns).2, e.is_call = false := by
  have hsub := u64_sub_of_le hnow hT
  have hmul := timeout_ns_le _ hD
  have hw : t.within_timeout now_ns = false := by
    unfold rpc_request_task.within_timeout
    rw [hsub]
    have h0 : ¬ (0 = t._enqueue_ts_ns) := fun h => hts h.symm
    have h1 : ¬ (now_ns - t._enqueue_ts_ns <
        u64_mul (static_cast_uint64 t._request.header.client.timeout_ms) 1000000) := by
      omega
    simp [h0, h1]
  have hev : (t.exec now_ns).2 =
      [rpc_request_event.dwarn_timeout t._request.header.from_address
        t._request.header.client.timeout_ms] := by
    simp [rpc_request_task.exec, hw]
  refine ⟨hev, ?_⟩
  intro e he
  rw [hev] at he
  simp at he
  subst he
  rfl

/-- Witness of C1, amended: queued at 1000 ns with a timeout of 1 ms and
executed 2 ms later. -/
theorem rpc_request_exec_stale_skips_handler_witness :
    ((sample_rpc_request_task 1000 1).exec 2001000).2 =
        [rpc_request_event.dwarn_timeout 1 1] ∧
      ∀ e ∈ ((sample_rpc_request_task 1000 1).exec 2001000).2, e.is_call = false :=
  rpc_request_exec_stale_skips_handler (sample_rpc_request_task 1000 1) 2001000
    (by decide) (by decide) (by decide) (by decide) (by decide)

/-- C6: after `rpc_request_task::exec` the handler is empty, whether the
handler was called or the request was dropped, and a second `exec`, at any
time, calls no handler. -/
theorem rpc_request_exec_releases_handler (t : rpc_request_task) (now_ns later_ns : Nat) :
    (t.exec now_ns).1._handler = none ∧
      ∀ e ∈ ((t.exec now_ns).1.exec later_ns).2, e.is_call = false := by
  refine ⟨rfl, ?_⟩
  intro e he
  simp only [rpc_request_task.exec] at he
  split at he
  · simp at he
  · simp at he
    subst he
    rfl

/-! ## The context accessors -/

theorem check_tls_dsn_of_ne (tls : __tls_dsn__) (h : tls.magic ≠ TLS_MAGIC) :
    task.check_tls_dsn tls = Except.error fatal_error.tls_dsn_not_set := by
  simp [task.check_tls_dsn, task.on_tls_dsn_not_set, h]

theorem check_tls_dsn_of_eq (tls : __tls_dsn__) (h : tls.magic = TLS_MAGIC) :
    task.check_tls_dsn tls = Except.ok tls := by
  simp [task.check_tls_dsn, h]

/-- C3, as stated, fails: on a thread whose context is not initialized
(`magic = 0`), `get_current_worker2`, `get_current_node2`,
`get_current_node_id` and `get_current_task_id` return a value normally
(null or `0`). -/
theorem get_current_uninitialized_returns :
    (sample_tls 0).magic ≠ TLS_MAGIC ∧
    task.get_current_worker2 (sample_tls 0) = Except.ok (nullptr, sample_tls 0) ∧
    task.get_current_node2 (sample_tls 0) = Except.ok (nullptr, sample_tls 0) ∧
    task.get_current_node_id (sample_tls 0) = Except.ok (0, sample_tls 0) ∧
    task.get_current_task_id (sample_tls 0) = Except.ok (0, sample_tls 0) :=
  ⟨by decide, rfl, rfl, rfl, rfl⟩

/-- C3, amended: on a thread whose context is not initialized
(`magic ≠ 0xdeadbeef`), the nine accessors that call `check_tls_dsn`
(`get_current_task`, `get_current_worker`, `get_current_node`,
`get_current_worker_index`, `get_current_rpc`, `get_current_disk`,
`get_current_env`, `get_current_nfs`, `get_current_tsvc`) end in the fatal
condition `on_tls_dsn_not_set` and return no value, while
`get_current_task_id`, `get_current_worker2`, `get_current_node2` and
`get_current_node_id` return `0` or null normally and leave the context as
it is. -/
theorem get_current_uninitialized (tls : __tls_dsn__) (h : tls.magic ≠ TLS_MAGIC) :
    (task.get_current_task tls = Except.error fatal_error.tls_dsn_not_set ∧
      task.get_current_worker tls = Except.error fatal_error.tls_dsn_not_set ∧
      task.get_current_node tls = Except.error fatal_error.tls_dsn_not_set ∧
      task.get_current_worker_index tls = Except.error fatal_error.tls_dsn_not_set ∧
      task.get_current_rpc tls = Except.error fatal_error.tls_dsn_not_set ∧
      task.get_current_disk tls = Except.error fatal_error.tls_dsn_not_set ∧
      task.get_current_env tls = Except.error fatal_error.tls_dsn_not_set ∧
      task.get_current_nfs tls = Except.error fatal_error.tls_dsn_not_set ∧
      task.get_current_tsvc tls = Except.error fatal_error.tls_dsn_not_set) ∧
    (task.get_current_task_id tls = Except.ok (0, tls) ∧
      task.get_current_worker2 tls = Except.ok (nullptr, tls) ∧
      task.get_current_node2 tls = Except.ok (nullptr, tls) ∧
      task.get_current_node_id tls = Except.ok (0, tls)) := by
  have hc := check_tls_dsn_of_ne tls h
  refine ⟨⟨?_, ?_, ?_, ?_, ?_, ?_, ?_, ?_, ?_⟩, ?_, ?_, ?_, ?_⟩
  · simp [task.get_current_task, hc, bind, Except.bind]
  · simp [task.get_current_worker, hc, bind, Except.bind]
  · simp [task.get_current_node, hc, bind, Except.bind]
  · simp [task.get_current_worker_index, hc, bind, Except.bind]
  · simp [task.get_current_rpc, hc, bind, Except.bind]
  · simp [task.get_current_disk, hc, bind, Except.bind]
  · simp [task.get_current_env, hc, bind, Except.bind]
  · simp [task.get_current_nfs, hc, bind, Except.bind]
  · simp [task.get_current_tsvc, hc, bind, Except.bind]
  · simp [task.get_current_task_id, h, pure, Except.pure]
  · simp [task.get_current_worker2, h, pure, Except.pure]
  · simp [task.get_current_node2, h, pure, Except.pure]
  · simp [task.get_current_node_id, h, pure, Except.pure]

/-- Witness of C3, amended: the sample context with `magic = 0`. -/
theorem get_current_uninitialized_witness :
    (sample_tls 0).magic ≠ TLS_MAGIC ∧
    task.get_current_task (sample_tls 0) = Except.error fatal_error.tls_dsn_not_set ∧
    task.get_current_tsvc (sample_tls 0) = Except.error fatal_error.tls_dsn_not_set :=
  ⟨by decide,
    (get_current_uninitialized (sample_tls 0) (by decide)).1.1,
    (get_current_uninitialized (sample_tls 0) (by decide)).1.2.2.2.2.2.2.2.2⟩

/-- C4: on a thread whose context is initialized (`magic = 0xdeadbeef`),
every accessor returns normally, with exactly the corresponding field of
the context, and leaves the context as it is; `get_current_task_id` returns
the id of the current task, or `0` when there is none. -/
theorem get_current_initialized (tls : __tls_dsn__) (h : tls.magic = TLS_MAGIC) :
    task.get_current_task tls = Except.ok (tls.current_task, tls) ∧
    task.get_current_task_id tls =
      Except.ok ((match tls.current_task with | some t => t._task_id | none => 0), tls) ∧
    task.get_current_worker tls = Except.ok (tls.worker, tls) ∧
    task.get_current_worker2 tls = Except.ok (tls.worker, tls) ∧
    task.get_current_node tls = Except.ok (tls.node, tls) ∧
    task.get_current_node2 tls = Except.ok (tls.node, tls) ∧
    task.get_current_node_id tls = Except.ok (tls.node_id, tls) ∧
    task.get_current_worker_index tls = Except.ok (tls.worker_index, tls) ∧
    task.get_current_rpc tls = Except.ok (tls.rpc, tls) ∧
    task.get_current_disk tls = Except.ok (tls.disk, tls) ∧
    task.get_current_env tls = Except.ok (tls.env, tls) ∧
    task.get_current_nfs tls = Except.ok (tls.nfs, tls) ∧
    task.get_current_tsvc tls = Except.ok (tls.tsvc, tls) := by
  have hc := check_tls_dsn_of_eq tls h
  refine ⟨?_, ?_, ?_, ?_, ?_, ?_, ?_, ?_, ?_, ?_, ?_, ?_, ?_⟩
  · simp [task.get_current_task, hc, bind, Except.bind, pure, Except.pure]
  · cases hct : tls.current_task <;>
      simp [task.get_current_task_id, h, hct, pure, Except.pure, task.id]
  · simp [task.get_current_worker, hc, bind, Except.bind, pure, Except.pure]
  · simp [task.get_current_worker2, h, pure, Except.pure]
  · simp [task.get_current_node, hc, bind, Except.bind, pure, Except.pure]
  · simp [task.get_current_node2, h, pure, Except.pure]
  · simp [task.get_current_node_id, h, pure, Except.pure]
  · simp [task.get_current_worker_index, hc, bind, Except.bind, pure, Except.pure]
  · simp [task.get_current_rpc, hc, bind, Except.bind, pure, Except.pure]
  · simp [task.get_current_disk, hc, bind, Except.bind, pure, Except.pure]
  · simp [task.get_current_env, hc, bind, Except.bind, pure, Except.pure]
  · simp [task.get_current_nfs, hc, bind, Except.bind, pure, Except.pure]
  · simp [task.get_current_tsvc, hc, bind, Except.bind, pure, Except.pure]

/-- Witness of C4: the sample context with `magic = 0xdeadbeef`, whose
current task has id 42. -/
theorem get_current_initialized_witness :
    (sample_tls 0xdeadbeef).magic = TLS_MAGIC ∧
    task.get_current_task (sample_tls 0xdeadbeef) =
      Except.ok (some sample_task, sample_tls 0xdeadbeef) ∧
    task.get_current_task_id (sample_tls 0xdeadbeef) =
      Except.ok (42, sample_tls 0xdeadbeef) :=
  ⟨by decide,
    (get_current_initialized (sample_tls 0xdeadbeef) (by decide)).1,
    (get_current_initialized (sample_tls 0xdeadbeef) (by decide)).2.1⟩

/-! ## `aio_task::copy_to` and `aio_task::collapse` -/

theorem total_size_eq_length (bs : List dsn_file_buffer_t) :
    total_size bs = (concat_buffers bs).length := by
  induction bs with
  | nil => rfl
  | cons b rest ih =>
    simp only [total_size, concat_buffers, List.map_cons, List.sum_cons, List.flatten_cons,
      List.length_append] at ih ⊢
    rw [ih]
    rfl

theorem memcpy_whole (dest src : List char) (off : Nat) (h : off + src.length ≤ dest.length) :
    memcpy dest off src src.length =
      some (dest.take off ++ src ++ dest.drop (off + src.length)) := by
  simp [memcpy, h]

theorem copy_buffers_eq (bs : List dsn_file_buffer_t) (dest : List char) (off : Nat)
    (h : off + total_size bs ≤ dest.length) :
    copy_buffers bs dest off =
      some (dest.take off ++ concat_buffers bs ++ dest.drop (off + total_size bs)) := by
  induction bs generalizing dest off with
  | nil =>
    simp [copy_buffers, concat_buffers, total_size]
  | cons b rest ih =>
    have hts : total_size (b :: rest) = b.buffer.length + total_size rest := by
      simp [total_size, dsn_file_buffer_t.size]
    have hcb : concat_buffers (b :: rest) = b.buffer ++ concat_buffers rest := by
      simp [concat_buffers]
    rw [hts] at h
    have hoff : off ≤ dest.length := by omega
    have hlen : (dest.take off).length = off := by simp [hoff]
    have hm := memcpy_whole dest b.buffer off (by omega)
    simp only [copy_buffers, dsn_file_buffer_t.size, hm]
    have hd1 : (dest.take off ++ b.buffer ++ dest.drop (off + b.buffer.length)).length =
        dest.length := by
      simp only [List.length_append, List.length_take, List.length_drop]
      omega
    rw [ih _ (off + b.buffer.length) (by rw [hd1]; omega)]
    have htake : (dest.take off ++ b.buffer ++ dest.drop (off + b.buffer.length)).take
        (off + b.buffer.length) = dest.take off ++ b.buffer := by
      apply List.take_left'
      simp [hoff]
    have hdrop : (dest.take off ++ b.buffer ++ dest.drop (off + b.buffer.length)).drop
        (off + b.buffer.length + total_size rest) =
        dest.drop (off + (b.buffer.length + total_size rest)) := by
      have hl : (dest.take off ++ b.buffer).length = off + b.buffer.length := by
        simp [hoff]
      rw [← hl, List.drop_append, List.drop_drop, hl]
      congr 1
      omega
    rw [htake, hdrop, hts, hcb]
    simp

theorem isEmpty_false_of_ne_nil (bs : List dsn_file_buffer_t) (h : bs ≠ []) :
    bs.isEmpty = false := by
  cases bs with
  | nil => exact absurd rfl h
  | cons b rest => rfl

theorem copy_to_gather (t : aio_task) (dest : List char)
    (hne : t._unmerged_write_buffers ≠ [])
    (hroom : total_size t._unmerged_write_buffers ≤ dest.length) :
    t.copy_to dest =
      some (t, concat_buffers t._unmerged_write_buffers ++
        dest.drop (total_size t._unmerged_write_buffers)) := by
  have he := isEmpty_false_of_ne_nil _ hne
  have hc := copy_buffers_eq t._unmerged_write_buffers dest 0 (by omega)
  simp [aio_task.copy_to, he, hc]

theorem copy_to_single (t : aio_task) (dest : List char)
    (he : t._unmerged_write_buffers = [])
    (hsrc : t._aio.buffer_size ≤ t._aio.buffer.length)
    (hroom : t._aio.buffer_size ≤ dest.length) :
    t.copy_to dest =
      some (t, t._aio.buffer.take t._aio.buffer_size ++ dest.drop t._aio.buffer_size) := by
  simp [aio_task.copy_to, he, memcpy, hsrc, hroom]

theorem collapse_gather (t : aio_task) (fresh : Nat → char)
    (hne : t._unmerged_write_buffers ≠ [])
    (hroom : total_size t._unmerged_write_buffers ≤ t._aio.buffer_size) :
    t.collapse fresh =
      some { t with
        _merged_write_buffer_holder :=
          { _holder := concat_buffers t._unmerged_write_buffers ++
              (make_shared_array t._aio.buffer_size fresh).drop
                (total_size t._unmerged_write_buffers)
            _offset := 0
            _length := t._aio.buffer_size }
        _aio := { t._aio with
          buffer := concat_buffers t._unmerged_write_buffers ++
            (make_shared_array t._aio.buffer_size fresh).drop
              (total_size t._unmerged_write_buffers) } } := by
  have he := isEmpty_false_of_ne_nil _ hne
  have hlen : (make_shared_array t._aio.buffer_size fresh).length = t._aio.buffer_size := by
    simp [make_shared_array]
  have hc := copy_to_gather t (make_shared_array t._aio.buffer_size fresh) hne
    (by rw [hlen]; exact hroom)
  simp [aio_task.collapse, he, hc, blob.assign]

/-- C2, as stated, fails: with one source buffer of 3 bytes and
`_aio->buffer_size = 5`, `collapse` leaves a descriptor buffer of 5 bytes,
not 3; with two source buffers totalling 3 bytes and `_aio->buffer_size = 2`
the copy runs past the end of the new 2-byte array. -/
theorem collapse_size_from_descriptor :
    total_size (sample_aio_task [[1, 2, 3]] 5)._unmerged_write_buffers = 3 ∧
    (((sample_aio_task [[1, 2, 3]] 5).collapse (fun _ => 0)).map
      (fun t => t._aio.buffer)) = some [1, 2, 3, 0, 0] ∧
    total_size (sample_aio_task [[1, 2], [3]] 2)._unmerged_write_buffers = 3 ∧
    (sample_aio_task [[1, 2], [3]] 2).collapse (fun _ => 0) = none := by
  decide

/-- C2, amended: for an AIO task whose `_unmerged_write_buffers` holds at
least one source buffer, totalling `S` bytes, and whose `_aio->buffer_size`
equals `S`, `collapse` succeeds and leaves `_aio->buffer`, held by
`_merged_write_buffer_holder` with offset 0 and length `S`, as one block of
exactly `S` bytes that is the concatenation of the source buffers in list
order, whatever the new array held before; nothing else changes. -/
theorem collapse_merges_buffers (t : aio_task) (fresh : Nat → char)
    (hne : t._unmerged_write_buffers ≠ [])
    (hsz : t._aio.buffer_size = total_size t._unmerged_write_buffers) :
    t.collapse fresh =
      some { t with
        _merged_write_buffer_holder :=
          { _holder := concat_buffers t._unmerged_write_buffers
            _offset := 0
            _length := total_size t._unmerged_write_buffers }
        _aio := { t._aio with buffer := concat_buffers t._unmerged_write_buffers } } ∧
    (concat_buffers t._unmerged_write_buffers).length =
      total_size t._unmerged_write_buffers := by
  refine ⟨?_, (total_size_eq_length _).symm⟩
  have hlen : (make_shared_array t._aio.buffer_size fresh).length = t._aio.buffer_size := by
    simp [make_shared_array]
  have hnil : (make_shared_array t._aio.buffer_size fresh).drop
      (total_size t._unmerged_write_buffers) = [] := by
    apply List.drop_eq_nil_of_le
    rw [hlen, hsz]
  rw [collapse_gather t fresh hne (by rw [hsz]), hnil, hsz]
  simp

/-- Witness of C2, amended: source buffers `[1, 2]` and `[3]` with
`_aio->buffer_size = 3`. -/
theorem collapse_merges_buffers_witness :
    ((sample_aio_task [[1, 2], [3]] 3).collapse (fun _ => 0)).map
        (fun t => (t._aio.buffer, t._merged_write_buffer_holder)) =
      some ([1, 2, 3], { _holder := [1, 2, 3], _offset := 0, _length := 3 }) := by
  rw [(collapse_merges_buffers (sample_aio_task [[1, 2], [3]] 3) (fun _ => 0)
    (by decide) (by decide)).1]
  decide

/-- C7, as stated, fails: with one source buffer of 3 bytes and
`_aio->buffer_size = 5`, `collapse` produces a block of 5 bytes, the 3
source bytes and 2 bytes of the new array as it was allocated, while
`copy_to` writes the 3 source bytes only and leaves the rest of the
destination as it was. -/
theorem copy_to_differs_from_collapse :
    (((sample_aio_task [[1, 2, 3]] 5).collapse (fun _ => 170)).map
      (fun t => (t._aio.buffer, t._aio.buffer_size))) = some ([1, 2, 3, 170, 170], 5) ∧
    (sample_aio_task [[1, 2, 3]] 5).copy_to [0, 0, 0, 0, 0] =
      some (sample_aio_task [[1, 2, 3]] 5, [1, 2, 3, 0, 0]) := by
  decide

/-- C7, amended: `copy_to(dest)`, for a destination with room for the image,
writes at `dest` the concatenation, in list order, of the buffers of
`_unmerged_write_buffers` when the list is not empty, and otherwise the
`buffer_size` bytes of `_aio->buffer`; the bytes of the destination after
the image and every field of the task stay as they were; and when
`_aio->buffer_size` is the total size of the list, the bytes written are the
content `collapse` gives `_aio->buffer`. -/
theorem copy_to_writes_merged_image (t : aio_task) (dest : List char) :
    (t._unmerged_write_buffers ≠ [] →
      total_size t._unmerged_write_buffers ≤ dest.length →
      t.copy_to dest =
        some (t, concat_buffers t._unmerged_write_buffers ++
          dest.drop (total_size t._unmerged_write_buffers))) ∧
    (t._unmerged_write_buffers = [] →
      t._aio.buffer_size ≤ t._aio.buffer.length →
      t._aio.buffer_size ≤ dest.length →
      t.copy_to dest =
        some (t, t._aio.buffer.take t._aio.buffer_size ++
          dest.drop t._aio.buffer_size)) ∧
    (∀ fresh : Nat → char,
      t._unmerged_write_buffers ≠ [] →
      t._aio.buffer_size = total_size t._unmerged_write_buffers →
      total_size t._unmerged_write_buffers ≤ dest.length →
      ∃ merged : aio_task, t.collapse fresh = some merged ∧
        t.copy_to dest =
          some (t, merged._aio.buffer ++
            dest.drop (total_size t._unmerged_write_buffers))) := by
  refine ⟨copy_to_gather t dest, copy_to_single t dest, ?_⟩
  intro fresh hne hsz hroom
  have hlen : (make_shared_array t._aio.buffer_size fresh).length = t._aio.buffer_size := by
    simp [make_shared_array]
  have hnil : (make_shared_array t._aio.buffer_size fresh).drop
      (total_size t._unmerged_write_buffers) = [] := by
    apply List.drop_eq_nil_of_le
    rw [hlen, hsz]
  refine ⟨_, collapse_gather t fresh hne (by rw [hsz]), ?_⟩
  rw [copy_to_gather t dest hne hroom, hnil]
  simp

/-- Witness of C7, amended: source buffers `[1, 2]` and `[3]` copied to a
destination of four bytes. -/
theorem copy_to_writes_merged_image_witness :
    (sample_aio_task [[1, 2], [3]] 3).copy_to [0, 0, 0, 8] =
      some (sample_aio_task [[1, 2], [3]] 3, [1, 2, 3, 8]) :=
  (copy_to_writes_merged_image (sample_aio_task [[1, 2], [3]] 3) [0, 0, 0, 8]).1
    (by decide) (by decide)

/-! ## `aio_task::exec` and `rpc_response_task::exec` -/

/-- C8, as stated, fails: when the callback of the sample AIO task throws,
`exec` leaves `_cb` non-null and a further `exec` calls it again; and when
the callback calls `exec` of its task once, that one `exec` calls it
twice. -/
theorem aio_exec_callback_kept_or_repeated :
    (sample_aio_task [] 2)._cb = some 4 ∧
    aio_task.exec always_throws 1 0 (sample_aio_task [] 2) =
      some { after := sample_aio_task [] 2, calls := [sample_aio_call], thrown := true } ∧
    aio_task.exec always_throws 1 1 (sample_aio_task [] 2) =
      some { after := sample_aio_task [] 2, calls := [sample_aio_call], thrown := true } ∧
    aio_task.exec (reenters_times 1) 2 0 (sample_aio_task [] 2) =
      some { after := { sample_aio_task [] 2 with _cb := none },
             calls := [sample_aio_call, sample_aio_call], thrown := false } := by
  decide

/-- C8, amended: `aio_task::exec` with a non-null callback that returns
normally and does not call `exec` of the task again calls it exactly once,
with the recorded error and transferred size, and then sets it to null,
changing nothing else, so that a further `exec`, whatever the callback
would do, calls nothing; with a null callback `exec` does nothing. -/
theorem aio_exec_calls_once_and_releases (t : aio_task) (behaviour : callback_behaviour)
    (fuel started : Nat) :
    (∀ cb, t._cb = some cb → behaviour started = callback_action.returns →
      aio_task.exec behaviour (fuel + 1) started t =
        some { after := { t with _cb := none }
               calls := [{ cb := cb, error := t._error,
                           transferred_size := t._transferred_size }]
               thrown := false } ∧
      ∀ (later : callback_behaviour) (fuel2 started2 : Nat),
        aio_task.exec later (fuel2 + 1) started2 { t with _cb := none } =
          some { after := { t with _cb := none }, calls := [], thrown := false }) ∧
    (t._cb = none →
      aio_task.exec behaviour (fuel + 1) started t =
        some { after := t, calls := [], thrown := false }) := by
  constructor
  · intro cb h hret
    constructor
    · simp [aio_task.exec, h, hret]
    · intro later fuel2 started2
      simp [aio_task.exec]
  · intro h
    simp [aio_task.exec, h]

/-- Witness of C8, amended: the sample AIO task, whose callback `4`
returns. -/
theorem aio_exec_calls_once_and_releases_witness :
    aio_task.exec always_returns 1 0 (sample_aio_task [] 2) =
      some { after := { sample_aio_task [] 2 with _cb := none }
             calls := [sample_aio_call], thrown := false } ∧
    aio_task.exec always_throws 1 1 { sample_aio_task [] 2 with _cb := none } =
      some { after := { sample_aio_task [] 2 with _cb := none }, calls := [],
             thrown := false } :=
  ⟨((aio_exec_calls_once_and_releases (sample_aio_task [] 2) always_returns 0 0).1
      4 rfl rfl).1,
    ((aio_exec_calls_once_and_releases (sample_aio_task [] 2) always_returns 0 0).1
      4 rfl rfl).2 always_throws 0 1⟩

/-- C10: along every sequence of operations applied to a task, each
operation leaves the state where it is or makes one of the moves
ready to running (dispatch), running to finished (completion), ready or
running to cancelled (cancel), running to ready (retry); so the state never
moves back on the chain ready, running, {finished, cancelled} except by a
retry from running; from finished or cancelled no sequence of operations
changes the state; and operations change no other field. -/
theorem task_state_moves_forward (t : task) (ops : List task_operation) :
    (∀ op : task_operation,
      ((t.apply_operations ops).apply_operation op).state = (t.apply_operations ops).state ∨
      (op = task_operation.dispatch ∧
        (t.apply_operations ops).state = task_state.TASK_STATE_READY ∧
        ((t.apply_operations ops).apply_operation op).state =
          task_state.TASK_STATE_RUNNING) ∨
      (op = task_operation.complete ∧
        (t.apply_operations ops).state = task_state.TASK_STATE_RUNNING ∧
        ((t.apply_operations ops).apply_operation op).state =
          task_state.TASK_STATE_FINISHED) ∨
      (op = task_operation.cancel ∧
        ((t.apply_operations ops).state = task_state.TASK_STATE_READY ∨
          (t.apply_operations ops).state = task_state.TASK_STATE_RUNNING) ∧
        ((t.apply_operations ops).apply_operation op).state =
          task_state.TASK_STATE_CANCELLED) ∨
      (op = task_operation.retry ∧
        (t.apply_operations ops).state = task_state.TASK_STATE_RUNNING ∧
        ((t.apply_operations ops).apply_operation op).state =
          task_state.TASK_STATE_READY)) ∧
    (∀ op : task_operation,
      (t.apply_operations ops).state.rank ≤
          ((t.apply_operations ops).apply_operation op).state.rank ∨
        op = task_operation.retry) ∧
    (t.state.is_terminal = true → (t.apply_operations ops).state = t.state) ∧
    t.apply_operations ops = { t with _state := (t.apply_operations ops).state } := by
  refine ⟨?_, ?_, ?_, ?_⟩
  · intro op
    generalize t.apply_operations ops = u
    cases u with
    | mk n e s i h d =>
      cases s <;> cases op <;> simp [task.apply_operation, task.state, task_state.step]
  · intro op
    generalize t.apply_operations ops = u
    cases u with
    | mk n e s i h d =>
      cases s <;> cases op <;> simp [task.apply_operation, task.state, task_state.step,
        task_state.rank]
  · intro hterm
    induction ops generalizing t with
    | nil => rfl
    | cons op rest ih =>
      have hstep : (t.apply_operation op).state = t.state := by
        cases t with
        | mk n e s i h d =>
          cases s <;> cases op <;> simp_all [task.apply_operation, task.state,
            task_state.step, task_state.is_terminal]
      have := ih (t.apply_operation op) (by rw [hstep]; exact hterm)
      simp only [task.apply_operations, List.foldl_cons] at this ⊢
      rw [this, hstep]
  · induction ops generalizing t with
    | nil => rfl
    | cons op rest ih =>
      have := ih (t.apply_operation op)
      simp only [task.apply_operations, List.foldl_cons] at this ⊢
      rw [this]
      simp [task.apply_operation, task.state]

/-- Witness of C10: a task that was dispatched and ran to completion stays
finished under a later cancel, retry and dispatch. -/
theorem task_state_moves_forward_witness :
    ((sample_task.apply_operations
        [task_operation.dispatch, task_operation.complete]).apply_operations
      [task_operation.cancel, task_operation.retry, task_operation.dispatch]).state =
      task_state.TASK_STATE_FINISHED :=
  (task_state_moves_forward
    (sample_task.apply_operations [task_operation.dispatch, task_operation.complete])
    [task_operation.cancel, task_operation.retry, task_operation.dispatch]).2.2.1 (by decide)

/-! ## `__tls_dsn__::scratch_next` -/

theorem scratch_next_of_range (tls : __tls_dsn__)
    (h0 : 0 ≤ tls.scratch_buffer_index) (h1 : tls.scratch_buffer_index < 2 ^ 31 - 1) :
    tls.scratch_next =
      some (((tls.scratch_buffer_index + 1) % 4).toNat,
        { tls with scratch_buffer_index := tls.scratch_buffer_index + 1 }) := by
  have hne : tls.scratch_buffer_index ≠ INT_MAX := by
    unfold INT_MAX
    omega
  have hmod : Int.tmod (tls.scratch_buffer_index + 1) 4 = (tls.scratch_buffer_index + 1) % 4 :=
    Int.tmod_eq_emod (by omega) (by decide)
  have hrow : 0 ≤ (tls.scratch_buffer_index + 1) % 4 ∧
      ((tls.scratch_buffer_index + 1) % 4).toNat < SCRATCH_BUFFER_COUNT := by
    unfold SCRATCH_BUFFER_COUNT
    omega
  simp only [__tls_dsn__.scratch_next, hne, hmod, if_false, hrow, and_self, if_true]

/-- C15: for a context whose `scratch_buffer_index` is `i` with
`0 ≤ i < 2 ^ 31 - 1`, `scratch_next` sets the index to `i + 1` and returns
scratch buffer number `(i + 1) mod 4`, which is below 4, changing nothing
else; and four calls in a row that each start in that range (`i + 3 <
2 ^ 31 - 1`) return the buffers `(i + 1) mod 4`, `(i + 2) mod 4`,
`(i + 3) mod 4`, `(i + 4) mod 4`: four different ones, each the cyclic
successor of the one before. -/
theorem scratch_next_cycles (tls : __tls_dsn__)
    (h0 : 0 ≤ tls.scratch_buffer_index) (h1 : tls.scratch_buffer_index < 2 ^ 31 - 1) :
    (tls.scratch_next =
        some (((tls.scratch_buffer_index + 1) % 4).toNat,
          { tls with scratch_buffer_index := tls.scratch_buffer_index + 1 }) ∧
      ((tls.scratch_buffer_index + 1) % 4).toNat < 4) ∧
    (tls.scratch_buffer_index + 3 < 2 ^ 31 - 1 →
      tls.scratch_next_rows 4 =
        some ([((tls.scratch_buffer_index + 1) % 4).toNat,
            ((tls.scratch_buffer_index + 2) % 4).toNat,
            ((tls.scratch_buffer_index + 3) % 4).toNat,
            ((tls.scratch_buffer_index + 4) % 4).toNat],
          { tls with scratch_buffer_index := tls.scratch_buffer_index + 4 }) ∧
      [((tls.scratch_buffer_index + 1) % 4).toNat,
        ((tls.scratch_buffer_index + 2) % 4).toNat,
        ((tls.scratch_buffer_index + 3) % 4).toNat,
        ((tls.scratch_buffer_index + 4) % 4).toNat].Nodup ∧
      ((tls.scratch_buffer_index + 2) % 4).toNat =
        (((tls.scratch_buffer_index + 1) % 4).toNat + 1) % 4 ∧
      ((tls.scratch_buffer_index + 3) % 4).toNat =
        (((tls.scratch_buffer_index + 2) % 4).toNat + 1) % 4 ∧
      ((tls.scratch_buffer_index + 4) % 4).toNat =
        (((tls.scratch_buffer_index + 3) % 4).toNat + 1) % 4) := by
  refine ⟨⟨scratch_next_of_range tls h0 h1, by omega⟩, ?_⟩
  intro h4
  have e1 := scratch_next_of_range tls h0 h1
  have e2 := scratch_next_of_range
    { tls with scratch_buffer_index := tls.scratch_buffer_index + 1 }
    (by simp only; omega) (by simp only; omega)
  have e3 := scratch_next_of_range
    { tls with scratch_buffer_index := tls.scratch_buffer_index + 1 + 1 }
    (by simp only; omega) (by simp only; omega)
  have e4 := scratch_next_of_range
    { tls with scratch_buffer_index := tls.scratch_buffer_index + 1 + 1 + 1 }
    (by simp only; omega) (by simp only; omega)
  simp only at e2 e3 e4
  have a2 : tls.scratch_buffer_index + 1 + 1 = tls.scratch_buffer_index + 2 := by omega
  have a3 : tls.scratch_buffer_index + 2 + 1 = tls.scratch_buffer_index + 3 := by omega
  have a4 : tls.scratch_buffer_index + 3 + 1 = tls.scratch_buffer_index + 4 := by omega
  rw [a2] at e2 e3 e4
  rw [a3] at e3 e4
  rw [a4] at e4
  refine ⟨?_, ?_, ?_, ?_, ?_⟩
  · simp only [__tls_dsn__.scratch_next_rows, e1, e2, e3, e4]
  · simp only [List.nodup_cons, List.mem_cons, List.mem_singleton, List.not_mem_nil,
      List.nodup_nil, not_or, or_false, not_false_eq_true, and_true]
    omega
  · omega
  · omega
  · omega

/-- Witness of C15: from index 6 the next four calls return the buffers
3, 0, 1, 2. -/
theorem scratch_next_cycles_witness :
    (sample_tls_scratch 6).scratch_next =
      some (3, sample_tls_scratch 7) ∧
    (sample_tls_scratch 6).scratch_next_rows 4 =
      some ([3, 0, 1, 2], sample_tls_scratch 10) :=
  ⟨(scratch_next_cycles (sample_tls_scratch 6) (by decide) (by decide)).1.1,
    ((scratch_next_cycles (sample_tls_scratch 6) (by decide) (by decide)).2 (by decide)).1⟩

/-! ## `raw_task::exec` -/

theorem raw_task_exec_of_null (behaviour : callback_behaviour) (fuel started : Nat)
    (t : raw_task) (h : t._cb = none) :
    raw_task.exec behaviour (fuel + 1) started t =
      some { after := t, calls := [], thrown := false } := by
  simp [raw_task.exec, h]

theorem raw_task_exec_of_returns (behaviour : callback_behaviour) (fuel started : Nat)
    (t : raw_task) (cb : Nat) (h : t._cb = some cb)
    (hret : behaviour started = callback_action.returns) :
    raw_task.exec behaviour (fuel + 1) started t =
      some { after := { t with _cb := none }, calls := [cb], thrown := false } := by
  simp [raw_task.exec, h, hret]

theorem raw_task_exec_times_of_null (behaviour : callback_behaviour) (fuel n started : Nat)
    (t : raw_task) (h : t._cb = none) :
    raw_task.exec_times behaviour (fuel + 1) n started t = some (t, []) := by
  induction n generalizing started with
  | zero => rfl
  | succ k ih =>
    simp [raw_task.exec_times, raw_task_exec_of_null behaviour fuel started t h, ih]

theorem raw_task_exec_times_of_returns (behaviour : callback_behaviour)
    (fuel n started : Nat) (t : raw_task) (cb : Nat) (h : t._cb = some cb)
    (hret : behaviour started = callback_action.returns) :
    raw_task.exec_times behaviour (fuel + 1) (n + 1) started t =
      some ({ t with _cb := none }, [cb]) := by
  have hl := raw_task_exec_times_of_null behaviour fuel n (started + 1)
    { t with _cb := none } rfl
  simp [raw_task.exec_times, raw_task_exec_of_returns behaviour fuel started t cb h hret, hl]

/-- C13, as stated, fails: a `raw_task` whose callback `3` throws is
executed twice and calls it twice, `_cb` never being reset; and one `exec`
of a task whose callback calls `exec` of the task again, at its first two
calls, calls it three times. -/
theorem raw_task_exec_callback_repeated :
    raw_task.exec_times always_throws 1 2 0 (raw_task.ctor sample_task (some 3)) =
      some (raw_task.ctor sample_task (some 3), [3, 3]) ∧
    raw_task.exec (reenters_times 2) 3 0 (raw_task.ctor sample_task (some 3)) =
      some { after := raw_task.ctor sample_task none, calls := [3, 3, 3],
             thrown := false } := by
  decide

/-- C13, amended: for a `raw_task` whose callback, when called, returns
normally and does not call `exec` of the task again, any number `n` of
`exec` calls in a row, with no new callback bound between them, calls the
callback at most once; with a non-null callback the first `exec` calls it
once and sets it to null, and all the calls together still call it once;
with a null callback no number of calls calls anything.  The same holds of
a `safe_late_task`, whose `exec` is that of its `raw_task` part: after
`bind_and_enqueue` its callback is `c(_user_cb)` when the user callback is
non-null, called at most once, and stays null when the user callback is
null, so that `exec` calls nothing. -/
theorem raw_task_exec_at_most_once (t : raw_task) (behaviour : callback_behaviour)
    (fuel n started : Nat) (hret : behaviour started = callback_action.returns) :
    (∃ result, raw_task.exec_times behaviour (fuel + 1) n started t = some result ∧
      result.2.length ≤ 1) ∧
    (∀ cb, t._cb = some cb →
      raw_task.exec behaviour (fuel + 1) started t =
        some { after := { t with _cb := none }, calls := [cb], thrown := false } ∧
      raw_task.exec_times behaviour (fuel + 1) (n + 1) started t =
        some ({ t with _cb := none }, [cb])) ∧
    (t._cb = none →
      raw_task.exec_times behaviour (fuel + 1) n started t = some (t, [])) ∧
    (∀ (base : task) (c : Nat → Option Nat) (delay_ms : Int),
      ((safe_late_task.ctor base none).bind_and_enqueue c delay_ms)._cb = none ∧
      safe_late_task.exec behaviour (fuel + 1) started
          ((safe_late_task.ctor base none).bind_and_enqueue c delay_ms) =
        some { after := (safe_late_task.ctor base none).bind_and_enqueue c delay_ms
               calls := [], thrown := false }) ∧
    (∀ (base : task) (user_cb : Nat) (c : Nat → Option Nat) (delay_ms : Int),
      ((safe_late_task.ctor base (some user_cb)).bind_and_enqueue c delay_ms)._cb =
        c user_cb ∧
      ∀ handler, c user_cb = some handler →
        safe_late_task.exec behaviour (fuel + 1) started
            ((safe_late_task.ctor base (some user_cb)).bind_and_enqueue c delay_ms) =
          some { after :=
                   { (safe_late_task.ctor base (some user_cb)).bind_and_enqueue c delay_ms
                     with _cb := none }
                 calls := [handler], thrown := false } ∧
        raw_task.exec_times behaviour (fuel + 1) (n + 1) started
            ((safe_late_task.ctor base (some user_cb)).bind_and_enqueue c
              delay_ms).toraw_task =
          some ({ ((safe_late_task.ctor base (some user_cb)).bind_and_enqueue c
                    delay_ms).toraw_task with _cb := none }, [handler])) := by
  refine ⟨?_, ?_, raw_task_exec_times_of_null behaviour fuel n started t, ?_, ?_⟩
  · cases hcb : t._cb with
    | none =>
      exact ⟨_, raw_task_exec_times_of_null behaviour fuel n started t hcb, by simp⟩
    | some cb =>
      cases n with
      | zero => exact ⟨_, rfl, by simp⟩
      | succ k =>
        exact ⟨_, raw_task_exec_times_of_returns behaviour fuel k started t cb hcb hret,
          by simp⟩
  · intro cb h
    exact ⟨raw_task_exec_of_returns behaviour fuel started t cb h hret,
      raw_task_exec_times_of_returns behaviour fuel n started t cb h hret⟩
  · intro base c delay_ms
    refine ⟨rfl, ?_⟩
    have h0 : ((safe_late_task.ctor base none).bind_and_enqueue c delay_ms).toraw_task._cb =
        none := rfl
    simp [safe_late_task.exec, raw_task_exec_of_null behaviour fuel started _ h0]
  · intro base user_cb c delay_ms
    refine ⟨rfl, ?_⟩
    intro handler hc
    have h0 : ((safe_late_task.ctor base (some user_cb)).bind_and_enqueue c
        delay_ms).toraw_task._cb = some handler := by
      rw [← hc]
      rfl
    refine ⟨?_, raw_task_exec_times_of_returns behaviour fuel n started _ handler h0 hret⟩
    simp [safe_late_task.exec,
      raw_task_exec_of_returns behaviour fuel started _ handler h0 hret]

/-- Witness of C13, amended: a task whose callback `3` returns, executed
three times, calls it once. -/
theorem raw_task_exec_at_most_once_witness :
    raw_task.exec_times always_returns 1 3 0 (raw_task.ctor sample_task (some 3)) =
      some (raw_task.ctor sample_task none, [3]) :=
  ((raw_task_exec_at_most_once (raw_task.ctor sample_task (some 3)) always_returns
    0 2 0 rfl).2.1 3 rfl).2

/-! ## `safe_handle` -/

theorem gpid_value_eq_iff (a b : gpid) :
    a.value = b.value ↔
      a.get_app_id = b.get_app_id ∧ a.get_partition_index = b.get_partition_index := by
  have ha := a._value.value_lt
  have hb := b._value.value_lt
  simp only [gpid.value, gpid.get_app_id, gpid.get_partition_index, dsn_gpid.app_id,
    dsn_gpid.partition_index, to_int32]
  constructor
  · intro h
    rw [h]
    exact ⟨rfl, rfl⟩
  · intro h
    obtain ⟨h1, h2⟩ := h
    split at h1 <;> split at h1 <;> split at h2 <;> split at h2 <;> omega

/-- C12: `gpid::operator<` is the lexicographic order on
`(app_id, partition_index)`; it is irreflexive and transitive, and for any
two gpids exactly one of `a < b`, `a == b`, `b < a` holds; `a == b`, the
equality of the 64-bit values, holds exactly when both `app_id` and
`partition_index` are equal; and `operator!=` is the negation of
`operator==`. -/
theorem gpid_operator_lt_strict_total (a b c : gpid) :
    (a.operator_lt b = true ↔
      a.get_app_id < b.get_app_id ∨
        (a.get_app_id = b.get_app_id ∧ a.get_partition_index < b.get_partition_index)) ∧
    a.operator_lt a = false ∧
    (a.operator_lt b = true → b.operator_lt c = true → a.operator_lt c = true) ∧
    ((a.operator_lt b = true ∧ a.operator_eq b = false ∧ b.operator_lt a = false) ∨
      (a.operator_lt b = false ∧ a.operator_eq b = true ∧ b.operator_lt a = false) ∨
      (a.operator_lt b = false ∧ a.operator_eq b = false ∧ b.operator_lt a = true)) ∧
    (a.operator_eq b = true ↔
      a.get_app_id = b.get_app_id ∧ a.get_partition_index = b.get_partition_index) ∧
    a.operator_ne b = !a.operator_eq b := by
  have heq := gpid_value_eq_iff a b
  have hlt : ∀ x y : gpid, x.operator_lt y = true ↔
      x.get_app_id < y.get_app_id ∨
        (x.get_app_id = y.get_app_id ∧ x.get_partition_index < y.get_partition_index) := by
    intro x y
    simp [gpid.operator_lt, gpid.get_app_id, gpid.get_partition_index]
  have hltf : ∀ x y : gpid, x.operator_lt y = false ↔
      ¬ (x.get_app_id < y.get_app_id ∨
        (x.get_app_id = y.get_app_id ∧ x.get_partition_index < y.get_partition_index)) := by
    intro x y
    rw [← hlt x y]
    simp
  have hoe : a.operator_eq b = true ↔ a.value = b.value := by
    simp [gpid.operator_eq]
  have hoef : a.operator_eq b = false ↔ ¬ a.value = b.value := by
    simp [gpid.operator_eq]
  refine ⟨hlt a b, ?_, ?_, ?_, ?_, ?_⟩
  · rw [hltf]
    omega
  · rw [hlt a b, hlt b c, hlt a c]
    omega
  · rw [hlt a b, hlt b a, hltf a b, hltf b a, hoe, hoef, heq]
    omega
  · rw [hoe, heq]
  · simp [gpid.operator_ne, gpid.operator_eq]

/-- Witness of C12: the gpids (1, 7), (2, -3) and (2, 0) are in increasing
order, a negative partition index coming before a non-negative one. -/
theorem gpid_operator_lt_strict_total_witness :
    (gpid.ctor 1 7).operator_lt (gpid.ctor 2 (-3)) = true ∧
    (gpid.ctor 2 (-3)).operator_lt (gpid.ctor 2 0) = true ∧
    (gpid.ctor 1 7).operator_lt (gpid.ctor 2 0) = true :=
  ⟨by decide, by decide,
    (gpid_operator_lt_strict_total (gpid.ctor 1 7) (gpid.ctor 2 (-3)) (gpid.ctor 2 0)).2.2.1
      (by decide) (by decide)⟩

end dsn
